import Mathlib

/-!
Verification of the Cores3_Arduino_Cloud firmware control logic
(`src/Cores3_Arduino_Cloud/Cores3_Arduino_Cloud.ino`).

The development gives a shallow embedding of the firmware's control-loop
logic: the temperature-ingest block of `loop()`, the touch dispatcher
`handleTouch()`, the settings-menu handler `handleSettingsTouch()`, and the
blocking emissivity modal `adjustEmissivity()`.  Floating-point values are
modelled as rationals (every constant in the source is an exact decimal),
machine integers as `Int`, and the blocking modal sub-loops as recursion
over the list of future touch samples they consume.  Hardware collaborators
(display, speaker, sensor, preferences store, cloud property) are modelled
by the values the core hands them: draw/sound requests become effect
fields, the preferences store becomes a `Settings` snapshot, the cloud
property becomes an `Option` push value.
-/

namespace Cores3

/-! ### Configuration constants (namespace Config in the source) -/

/-- Config.Display.HEADER_HEIGHT. -/
def HEADER_HEIGHT : Int := 30

/-- Config.Display.FOOTER_HEIGHT. -/
def FOOTER_HEIGHT : Int := 40

/-- Config.Display.MARGIN. -/
def MARGIN : Int := 10

/-- Config.Display.BUTTON_HEIGHT. -/
def BUTTON_HEIGHT : Int := 50

/-- Config.Temperature.MIN_TEMP_C. -/
def MIN_TEMP_C : ℚ := -20

/-- Config.Temperature.MAX_TEMP_C. -/
def MAX_TEMP_C : ℚ := 400

/-- Config.Temperature.DEFAULT_TARGET_C. -/
def DEFAULT_TARGET_C : ℚ := 180

/-- Config.Temperature.DEFAULT_TOLERANCE_C. -/
def DEFAULT_TOLERANCE_C : ℚ := 5

/-- Config.System.DEFAULT_BRIGHTNESS. -/
def DEFAULT_BRIGHTNESS : Int := 128

/-- Config.System.DEFAULT_EMISSIVITY (0.87). -/
def DEFAULT_EMISSIVITY : ℚ := 87 / 100

/-- The CoreS3 display in rotation 1 is 320 pixels wide; the source queries
CoreS3.Display.width(). -/
def displayWidth : Int := 320

/-- The CoreS3 display in rotation 1 is 240 pixels tall; the source queries
CoreS3.Display.height(). -/
def displayHeight : Int := 240

/-- Display color constant Config.Display.COLOR_WARNING (amber). -/
def COLOR_WARNING : Nat := 0xFFB627

/-- Display color constant Config.Display.COLOR_SUCCESS (green). -/
def COLOR_SUCCESS : Nat := 0x3CD070

/-- Display color constant Config.Display.COLOR_TEXT (TFT_WHITE). -/
def COLOR_TEXT : Nat := 0xFFFFFF

/-! ### Settings record (struct Settings in the source) -/

/-- The persisted configuration record, struct Settings in the source. -/
structure Settings where
  useCelsius : Bool
  soundEnabled : Bool
  brightness : Int
  emissivity : ℚ
  targetTemp : ℚ
  tempTolerance : ℚ
deriving DecidableEq, Repr

/-- The default-initialized Settings record (member initializers in the
source struct). -/
def defaultSettings : Settings :=
  { useCelsius := true
    soundEnabled := true
    brightness := DEFAULT_BRIGHTNESS
    emissivity := DEFAULT_EMISSIVITY
    targetTemp := DEFAULT_TARGET_C
    tempTolerance := DEFAULT_TOLERANCE_C }

/-! ### System state (struct SystemState in the source) -/

/-- The enum Screen nested in struct SystemState. -/
inductive Screen where
  | MAIN
  | SETTINGS
deriving DecidableEq, Repr

/-- The monitor/display state, struct SystemState in the source.  Timing
fields (lastTempUpdate, lastSerialUpdate, lastBatteryCheck) and the battery
flag are omitted: the claims under verification do not touch them and the
blocks that use them are pure time-gated observation. -/
structure SystemState where
  isMonitoring : Bool
  currentTemp : ℚ
  statusMessage : String
  statusColor : Nat
  currentScreen : Screen
deriving DecidableEq, Repr

/-- The zero-initialized SystemState (member initializers in the source:
monitoring off, currentTemp 0, empty status, text color, MAIN screen). -/
def initialState : SystemState :=
  { isMonitoring := false
    currentTemp := 0
    statusMessage := ""
    statusColor := COLOR_TEXT
    currentScreen := Screen.MAIN }

/-- Source function updateStatus(message, color): stores the new status and
redraws the status area only when the message or the color changed.  The
returned Bool records whether the stored status changed (a redraw
happened). -/
def updateStatus (st : SystemState) (message : String) (color : Nat) :
    SystemState × Bool :=
  if message ≠ st.statusMessage ∨ color ≠ st.statusColor then
    ({ st with statusMessage := message, statusColor := color }, true)
  else (st, false)

/-- Source function isValidTemperature(temp): bounds check in centidegrees
(the comment in the source says values are in centidegrees). -/
def isValidTemperature (temp : ℚ) : Bool :=
  decide (-2000 < temp) && decide (temp < 20000)

/-- Source function readTemperature(): converts the raw sensor value
(hundredths of a degree Celsius) to Celsius. -/
def readTemperature (rawTemp : ℚ) : ℚ :=
  rawTemp / 100

/-- Source function checkTemperature(): validates the (already converted)
reading and stores it.  This helper is defined in the source but never
called from loop(). -/
def checkTemperature (st : SystemState) (rawTemp : ℚ) : SystemState :=
  let temp := readTemperature rawTemp
  if isValidTemperature temp then { st with currentTemp := temp } else st

/-- Effects requested of collaborators by one pass through the significant-
change block of loop(): the updateStatus invocation (if any) and whether it
redrew, the audible alert request, the cloud telemetry push (Fahrenheit
value written to the `temperature` cloud property), and the temperature-area
redraw. -/
structure LoopEffects where
  statusCall : Option (String × Nat)
  statusRedraw : Bool
  alertSound : Bool
  telemetry : Option ℚ
  drawTemp : Bool
deriving DecidableEq, Repr

/-- The empty effect record: nothing requested of any collaborator. -/
def noEffects : LoopEffects :=
  { statusCall := none, statusRedraw := false, alertSound := false
    telemetry := none, drawTemp := false }

/-- One temperature ingest: the significant-change block of loop() (source
lines 361 and 374-399).  The raw sample is converted to Celsius; if the
result differs from currentTemp by at least 1.0 or currentTemp is still 0,
currentTemp is updated, the monitoring status is recomputed, the Fahrenheit
value is pushed to the cloud property, and the temperature area is redrawn
unless the settings menu is open.  Otherwise nothing happens.  The loop()
body contains no validity-band check on the sample. -/
def ingest (sett : Settings) (menuOpen : Bool) (st : SystemState)
    (rawTemp : ℚ) : SystemState × LoopEffects :=
  let temp := readTemperature rawTemp
  if 1 ≤ |temp - st.currentTemp| ∨ st.currentTemp = 0 then
    let st1 := { st with currentTemp := temp }
    let r :=
      if st1.isMonitoring then
        let diff := |temp - sett.targetTemp|
        if diff > sett.tempTolerance then
          let u := updateStatus st1 "Temperature Out of Range!" COLOR_WARNING
          (u.1, some ("Temperature Out of Range!", COLOR_WARNING), u.2,
            sett.soundEnabled)
        else
          let u := updateStatus st1 "Monitoring" COLOR_SUCCESS
          (u.1, some ("Monitoring", COLOR_SUCCESS), u.2, false)
      else (st1, none, false, false)
    let tempF := temp * 9 / 5 + 32
    (r.1, { statusCall := r.2.1, statusRedraw := r.2.2.1, alertSound := r.2.2.2
            telemetry := some tempF, drawTemp := !menuOpen })
  else (st, noEffects)

/-! ### Settings-menu adjustment operators (handleSettingsTouch cases) -/

/-- Brightness adjustment, case 2 of handleSettingsTouch:
(brightness + 64) mod 256. -/
def adjustBrightness (b : Int) : Int :=
  (b + 64) % 256

/-- Target-temperature adjustment, case 4 of handleSettingsTouch: add 5 in
Celsius mode or 10 in Fahrenheit mode, then wrap to MIN_TEMP_C whenever the
result exceeds MAX_TEMP_C. -/
def adjustTargetTemp (useCelsius : Bool) (t : ℚ) : ℚ :=
  let t1 := t + (if useCelsius then 5 else 10)
  if t1 > MAX_TEMP_C then MIN_TEMP_C else t1

/-- Tolerance adjustment, case 5 of handleSettingsTouch: add 0.5 in Celsius
mode or 1.0 in Fahrenheit mode, wrapping to 1.0 above 20.0. -/
def adjustTolerance (useCelsius : Bool) (t : ℚ) : ℚ :=
  let t1 := t + (if useCelsius then 1 / 2 else 1)
  if t1 > 20 then 1 else t1

/-- Iterated Celsius-mode target-temperature adjustment. -/
def iterTarget : Nat → ℚ → ℚ
  | 0, t => t
  | n + 1, t => iterTarget n (adjustTargetTemp true t)

/-! ### Buttons (class Button in the source) -/

/-- The UI Button value: bounds, label and flags (class Button in the
source). -/
structure Button where
  x : Int
  y : Int
  width : Int
  height : Int
  label : String
  enabled : Bool
  isToggle : Bool
  toggleState : Bool
  pressed : Bool
deriving DecidableEq, Repr

/-- Button::contains(touch_x, touch_y): hit test, true only while the
button is enabled. -/
def Button.contains (b : Button) (tx ty : Int) : Bool :=
  b.enabled && decide (b.x ≤ tx) && decide (tx < b.x + b.width) &&
    decide (b.y ≤ ty) && decide (ty < b.y + b.height)

/-- Shorthand for building an enabled, unpressed button from bounds, label
and toggle flag (the Button constructor defaults). -/
def mkButton (x y w h : Int) (label : String) (isToggle : Bool := false) :
    Button :=
  { x := x, y := y, width := w, height := h, label := label
    enabled := true, isToggle := isToggle, toggleState := false
    pressed := false }

/-- Footer button width computed in handleTouch and drawFooter:
(width - 3 * MARGIN) / 2. -/
def footerButtonWidth : Int :=
  (displayWidth - 3 * MARGIN) / 2

/-- Top edge of the footer: height - FOOTER_HEIGHT. -/
def footerY : Int :=
  displayHeight - FOOTER_HEIGHT

/-- The Monitor/Stop footer button as constructed in handleTouch. -/
def monitorButton (isMonitoring : Bool) : Button :=
  { mkButton MARGIN (footerY + (FOOTER_HEIGHT - BUTTON_HEIGHT) / 2)
      footerButtonWidth (BUTTON_HEIGHT - 4)
      (if isMonitoring then "Stop" else "Monitor") true with
    toggleState := isMonitoring }

/-- The Settings/Back footer button as constructed in handleTouch. -/
def settingsBackButton (menuOpen : Bool) : Button :=
  mkButton (displayWidth - footerButtonWidth - MARGIN)
    (footerY + (FOOTER_HEIGHT - BUTTON_HEIGHT) / 2)
    footerButtonWidth (BUTTON_HEIGHT - 4)
    (if menuOpen then "Back" else "Settings")

/-! ### Emissivity modal (adjustEmissivity in the source) -/

/-- EMISSIVITY_MIN constant of adjustEmissivity (0.65). -/
def EMISSIVITY_MIN : ℚ := 65 / 100

/-- EMISSIVITY_MAX constant of adjustEmissivity (1.00). -/
def EMISSIVITY_MAX : ℚ := 1

/-- EMISSIVITY_STEP constant of adjustEmissivity (0.01). -/
def EMISSIVITY_STEP : ℚ := 1 / 100

/-- The + button of the emissivity modal: Button(220, 60, 80, 60, "+"). -/
def upBtn : Button := mkButton 220 60 80 60 "+"

/-- The - button of the emissivity modal: Button(220, 140, 80, 60, "-"). -/
def downBtn : Button := mkButton 220 140 80 60 "-"

/-- The Done button of the emissivity modal: Button(10, 180, 100, 50). -/
def doneBtn : Button := mkButton 10 180 100 50 "Done"

/-- The Restart button of the confirmation screen:
Button(10, 190, 145, 50). -/
def confirmBtn : Button := mkButton 10 190 145 50 "Restart"

/-- The Cancel button of the confirmation screen:
Button(165, 190, 145, 50). -/
def cancelBtn : Button := mkButton 165 190 145 50 "Cancel"

/-- One pressed-touch reaction of the adjustment sub-loop of
adjustEmissivity: the + branch steps up and clamps to EMISSIVITY_MAX, the -
branch steps down and clamps to EMISSIVITY_MIN, Done leaves the loop; each
step recomputes valueChanged as inequality with the original value.
Returns (staged value, valueChanged, loop finished). -/
def modalStep (orig temp : ℚ) (changed : Bool) (x y : Int) :
    ℚ × Bool × Bool :=
  if upBtn.contains x y then
    if temp < EMISSIVITY_MAX then
      let t1 := temp + EMISSIVITY_STEP
      let t2 := if t1 > EMISSIVITY_MAX then EMISSIVITY_MAX else t1
      (t2, decide (t2 ≠ orig), false)
    else (temp, changed, false)
  else if downBtn.contains x y then
    if temp > EMISSIVITY_MIN then
      let t1 := temp - EMISSIVITY_STEP
      let t2 := if t1 < EMISSIVITY_MIN then EMISSIVITY_MIN else t1
      (t2, decide (t2 ≠ orig), false)
    else (temp, changed, false)
  else if doneBtn.contains x y then (temp, changed, true)
  else (temp, changed, false)

/-- The blocking adjustment sub-loop of adjustEmissivity, driven by the
sequence of future pressed-touch samples it consumes.  Returns the staged
value, the valueChanged flag, the touches left over after Done (`none`
while the operator has not pressed Done: the loop is still blocking), and
the trace of staged values after each consumed touch. -/
def adjustLoop (orig : ℚ) :
    ℚ → Bool → List (Int × Int) →
      ℚ × Bool × Option (List (Int × Int)) × List ℚ
  | temp, changed, [] => (temp, changed, none, [])
  | temp, changed, (x, y) :: rest =>
    let s := modalStep orig temp changed x y
    if s.2.2 then (s.1, s.2.1, some rest, [s.1])
    else
      let r := adjustLoop orig s.1 s.2.1 rest
      (r.1, r.2.1, r.2.2.1, s.1 :: r.2.2.2)

/-- The blocking confirmation sub-loop of adjustEmissivity: waits for a
pressed touch on Restart (`some true`) or Cancel (`some false`); `none`
while neither has been pressed (the loop is still blocking). -/
def confirmLoop : List (Int × Int) → Option Bool
  | [] => none
  | (x, y) :: rest =>
    if confirmBtn.contains x y then some true
    else if cancelBtn.contains x y then some false
    else confirmLoop rest

/-- Outcome of one run of adjustEmissivity: the resulting Settings record,
the snapshot written to the preferences store by the modal itself (only the
confirmed-Restart path calls settings.save()), whether ESP.restart() was
reached, whether the modal is still blocked waiting for operator input, the
final staged value, and the trace of staged values. -/
structure AdjustResult where
  settings : Settings
  persisted : Option Settings
  restarted : Bool
  blocked : Bool
  staged : ℚ
  trace : List ℚ
deriving DecidableEq, Repr

/-- Source function adjustEmissivity(): stages a copy of
settings.emissivity, clamps it into [EMISSIVITY_MIN, EMISSIVITY_MAX], runs
the adjustment sub-loop over the pressed-touch samples, and, when the
operator pressed Done with a changed value, runs the confirmation sub-loop:
Restart writes the staged value into settings.emissivity, persists the
record and restarts the device; Cancel (and Done with an unchanged value)
leaves settings untouched and persists nothing. -/
def adjustEmissivity (s : Settings) (events : List (Int × Int)) :
    AdjustResult :=
  let orig := s.emissivity
  let t0 := s.emissivity
  let t1 := if t0 < EMISSIVITY_MIN then EMISSIVITY_MIN else t0
  let t2 := if t1 > EMISSIVITY_MAX then EMISSIVITY_MAX else t1
  let r := adjustLoop orig t2 false events
  let trace := t2 :: r.2.2.2
  match r.2.2.1 with
  | none =>
    { settings := s, persisted := none, restarted := false, blocked := true
      staged := r.1, trace := trace }
  | some rest =>
    if r.2.1 then
      match confirmLoop rest with
      | none =>
        { settings := s, persisted := none, restarted := false
          blocked := true, staged := r.1, trace := trace }
      | some true =>
        let s1 := { s with emissivity := r.1 }
        { settings := s1, persisted := some s1, restarted := true
          blocked := false, staged := r.1, trace := trace }
      | some false =>
        { settings := s, persisted := none, restarted := false
          blocked := false, staged := r.1, trace := trace }
    else
      { settings := s, persisted := none, restarted := false
        blocked := false, staged := r.1, trace := trace }

/-! ### Touch dispatcher and settings menu (handleTouch and
handleSettingsTouch in the source) -/

/-- Number of settings-menu items (SettingsMenu.numItems). -/
def numMenuItems : Int := 6

/-- The static touch-dispatcher state of handleTouch: the heap-allocated
armed button (lastPressedButton) and the touchProcessed flag. -/
structure TouchState where
  lastPressed : Option Button
  touchProcessed : Bool
deriving DecidableEq, Repr

/-- The process-wide mutable state touched by the dispatcher: the settings
record, the preferences-store snapshot (last record written by
settings.save()), the system state, the settings-menu open flag and cursor,
and the dispatcher statics. -/
structure World where
  settings : Settings
  store : Settings
  st : SystemState
  menuOpen : Bool
  menuSelected : Int
  touch : TouchState
deriving DecidableEq, Repr

/-- One settings-menu item action (the switch in handleSettingsTouch).
Item 3 delegates to adjustEmissivity, consuming the modal's future touch
samples.  Returns the new settings record, the store snapshot written from
inside the modal (confirmed-Restart path only), and whether ESP.restart()
was reached. -/
def applyMenuItem (s : Settings) (item : Int)
    (modalTouches : List (Int × Int)) :
    Settings × Option Settings × Bool :=
  if item = 0 then ({ s with useCelsius := !s.useCelsius }, none, false)
  else if item = 1 then
    ({ s with soundEnabled := !s.soundEnabled }, none, false)
  else if item = 2 then
    ({ s with brightness := adjustBrightness s.brightness }, none, false)
  else if item = 3 then
    let r := adjustEmissivity s modalTouches
    (r.settings, r.persisted, r.restarted)
  else if item = 4 then
    ({ s with targetTemp := adjustTargetTemp s.useCelsius s.targetTemp },
      none, false)
  else if item = 5 then
    ({ s with
        tempTolerance := adjustTolerance s.useCelsius s.tempTolerance },
      none, false)
  else (s, none, false)

/-- The menu-area block of handleSettingsTouch(x, y): when the touch lies
inside the menu area it selects the touched item, applies its action and
persists the record with settings.save() right after (unless the
emissivity modal restarted the device first).  Returns the new world and
whether ESP.restart() was reached. -/
def settingsMenuPhase (w : World) (x y : Int)
    (modalTouches : List (Int × Int)) : World × Bool :=
  let menuY := HEADER_HEIGHT + MARGIN
  let menuHeight :=
    displayHeight - HEADER_HEIGHT - FOOTER_HEIGHT - 2 * MARGIN
  let itemHeight := menuHeight / numMenuItems
  if decide (MARGIN ≤ x) && decide (x ≤ displayWidth - MARGIN) &&
      decide (menuY ≤ y) && decide (y ≤ menuY + menuHeight) then
    let touchedItem := (y - menuY) / itemHeight
    if decide (0 ≤ touchedItem) && decide (touchedItem < numMenuItems) then
      let w1 := { w with menuSelected := touchedItem }
      let a := applyMenuItem w1.settings touchedItem modalTouches
      if a.2.2 then
        ({ w1 with settings := a.1, store := a.2.1.getD w1.store }, true)
      else ({ w1 with settings := a.1, store := a.1 }, false)
    else (w, false)
  else (w, false)

/-- Source function handleSettingsTouch(x, y): runs the menu-area block,
then (unless the device restarted) closes the menu and persists the record
when the touch lies in the footer area.  Returns the new world and whether
ESP.restart() was reached. -/
def handleSettingsTouch (w : World) (x y : Int)
    (modalTouches : List (Int × Int)) : World × Bool :=
  let step1 := settingsMenuPhase w x y modalTouches
  if step1.2 then step1
  else
    let w2 := step1.1
    if decide (y > displayHeight - FOOTER_HEIGHT) then
      ({ w2 with menuOpen := false, store := w2.settings }, false)
    else (w2, false)

/-- One polled touch sample per tick: no contact, or a contact at (x, y)
with the wasPressed()/wasReleased() flags of the detail record. -/
inductive TouchSample where
  | noContact
  | contact (x y : Int) (wasPressed wasReleased : Bool)
deriving DecidableEq, Repr

/-- A semantic touch event: a button became armed (visual pressed state) or
a button's release action fired. -/
inductive TEvent where
  | buttonPressed (label : String)
  | buttonReleased (label : String)
deriving DecidableEq, Repr

/-- Result of one handleTouch tick: the new world, the semantic events of
the tick, and whether ESP.restart() was reached (possible only through the
emissivity modal). -/
structure TickResult where
  w : World
  events : List TEvent
  restarted : Bool
deriving DecidableEq, Repr

/-- The wasPressed branch of handleTouch: sets touchProcessed, arms the
Monitor/Stop or Settings/Back footer button when the press hits the footer,
or forwards the press to handleSettingsTouch when the settings menu is
open.  Arming a button stores a pressed copy in lastPressedButton. -/
def handlePress (w : World) (tx ty : Int)
    (modalTouches : List (Int × Int)) : TickResult :=
  let wp := { w with touch := { w.touch with touchProcessed := true } }
  if decide (footerY ≤ ty) then
    if !wp.menuOpen && decide (MARGIN ≤ tx) &&
        decide (tx < MARGIN + footerButtonWidth) then
      let b := { monitorButton wp.st.isMonitoring with pressed := true }
      { w := { wp with touch := { lastPressed := some b
                                  touchProcessed := true } }
        events := [TEvent.buttonPressed b.label], restarted := false }
    else if decide (displayWidth - footerButtonWidth - MARGIN ≤ tx) &&
        decide (tx < displayWidth - MARGIN) then
      let b := { settingsBackButton wp.menuOpen with pressed := true }
      { w := { wp with touch := { lastPressed := some b
                                  touchProcessed := true } }
        events := [TEvent.buttonPressed b.label], restarted := false }
    else { w := wp, events := [], restarted := false }
  else if wp.menuOpen then
    let r := handleSettingsTouch wp tx ty modalTouches
    { w := r.1, events := [], restarted := r.2 }
  else { w := wp, events := [], restarted := false }

/-- The wasReleased branch of handleTouch: when the release still lies
inside the armed button's bounds, the Monitor/Stop action toggles
isMonitoring and the Settings/Back action toggles the settings menu and
switches the screen; in every case the armed button is deleted and
touchProcessed cleared. -/
def handleRelease (w : World) (tx ty : Int) : World × List TEvent :=
  match w.touch.lastPressed with
  | none => (w, [])
  | some b =>
    let wt := { w with touch := { lastPressed := none
                                  touchProcessed := false } }
    if b.contains tx ty then
      if b.label = "Monitor" || b.label = "Stop" then
        ({ wt with st := { wt.st with isMonitoring := !wt.st.isMonitoring } },
          [TEvent.buttonReleased b.label])
      else if b.label = "Settings" || b.label = "Back" then
        let mo := !wt.menuOpen
        ({ wt with
            menuOpen := mo
            st := { wt.st with currentScreen :=
              if mo then Screen.SETTINGS else Screen.MAIN } },
          [TEvent.buttonReleased b.label])
      else (wt, [])
    else (wt, [])

/-- Source function handleTouch(): dispatches one polled touch sample.  A
fresh press (touchProcessed still false) runs the press branch; a release
with an armed button and touchProcessed set runs the release branch; a tick
with no contact defensively clears touchProcessed and deletes the armed
button without emitting any semantic event. -/
def handleTouch (w : World) (s : TouchSample)
    (modalTouches : List (Int × Int)) : TickResult :=
  match s with
  | TouchSample.contact tx ty wasPressed wasReleased =>
    if wasPressed && !w.touch.touchProcessed then
      handlePress w tx ty modalTouches
    else if wasReleased && w.touch.lastPressed.isSome &&
        w.touch.touchProcessed then
      let r := handleRelease w tx ty
      { w := r.1, events := r.2, restarted := false }
    else { w := w, events := [], restarted := false }
  | TouchSample.noContact =>
    { w := { w with touch := { lastPressed := none
                               touchProcessed := false } }
      events := [], restarted := false }

/-! ### Helper lemmas -/

/-- updateStatus never changes currentTemp. -/
theorem updateStatus_currentTemp (st : SystemState) (m : String) (c : Nat) :
    (updateStatus st m c).1.currentTemp = st.currentTemp := by
  unfold updateStatus
  split <;> rfl

/-- A sample passing the significance test always overwrites currentTemp
with its converted value: loop() applies no further check. -/
theorem ingest_currentTemp_of_significant (sett : Settings)
    (menuOpen : Bool) (st : SystemState) (raw : ℚ)
    (hsig : 1 ≤ |readTemperature raw - st.currentTemp| ∨
      st.currentTemp = 0) :
    (ingest sett menuOpen st raw).1.currentTemp = readTemperature raw := by
  simp only [ingest]
  rw [if_pos hsig]
  split_ifs <;> simp [updateStatus_currentTemp]

/-- A sample passing the significance test always pushes telemetry. -/
theorem ingest_telemetry_of_significant (sett : Settings)
    (menuOpen : Bool) (st : SystemState) (raw : ℚ)
    (hsig : 1 ≤ |readTemperature raw - st.currentTemp| ∨
      st.currentTemp = 0) :
    (ingest sett menuOpen st raw).2.telemetry ≠ none := by
  simp only [ingest]
  rw [if_pos hsig]
  split_ifs <;> simp

/-- Ascending helper for the target-temperature wraparound: whenever 400−t
is bounded by 5k, some positive number of +5 activations reaches
MIN_TEMP_C. -/
theorem iterTarget_reaches_min (k : Nat) :
    ∀ t : ℚ, 400 - t ≤ 5 * k →
      ∃ n : Nat, 0 < n ∧ iterTarget n t = MIN_TEMP_C := by
  induction k with
  | zero =>
    intro t h
    refine ⟨1, one_pos, ?_⟩
    have : (400 : ℚ) < t + 5 := by push_cast at h; linarith
    simp [iterTarget, adjustTargetTemp, MAX_TEMP_C, if_pos this]
  | succ k ih =>
    intro t h
    by_cases hgt : (400 : ℚ) < t + 5
    · exact ⟨1, one_pos, by
        simp [iterTarget, adjustTargetTemp, MAX_TEMP_C, if_pos hgt]⟩
    · push_neg at hgt
      obtain ⟨n, hn, hiter⟩ := ih (t + 5) (by push_cast at h ⊢; linarith)
      refine ⟨n + 1, Nat.succ_pos n, ?_⟩
      have hstep : adjustTargetTemp true t = t + 5 := by
        simp [adjustTargetTemp, MAX_TEMP_C, if_neg (not_lt.mpr hgt)]
      calc iterTarget (n + 1) t = iterTarget n (adjustTargetTemp true t) :=
            rfl
        _ = iterTarget n (t + 5) := by rw [hstep]
        _ = MIN_TEMP_C := hiter

/-! ### Concrete fixtures used by witnesses and counterexamples -/

/-- Fixture: zeroed system state with monitoring switched on. -/
def state7 : SystemState :=
  { initialState with isMonitoring := true }

/-- Fixture: settings with the C7 scenario target temperature 338
(tolerance keeps its default 5, Celsius mode). -/
def settings7 : Settings :=
  { defaultSettings with targetTemp := 338 }

/-- Fixture: a running monitor state holding 25 degrees C with a Success
status. -/
def stateC : SystemState :=
  { isMonitoring := true, currentTemp := 25
    statusMessage := "Monitoring", statusColor := COLOR_SUCCESS
    currentScreen := Screen.MAIN }

/-- Fixture: an idle monitor state holding 50 degrees C. -/
def stateD : SystemState :=
  { initialState with currentTemp := 50 }

/-! ### C9: brightness cycle -/

/-- C9: the brightness operator computes (brightness + 64) mod 256; from
the default 128 it cycles 128, 192, 0, 64 with period 4, and four
applications restore any brightness in [0, 255]. -/
theorem C9_brightness_cycle :
    adjustBrightness 128 = 192 ∧ adjustBrightness 192 = 0 ∧
    adjustBrightness 0 = 64 ∧ adjustBrightness 64 = 128 ∧
    ∀ b : Int, 0 ≤ b → b ≤ 255 →
      adjustBrightness (adjustBrightness (adjustBrightness
        (adjustBrightness b))) = b := by
  refine ⟨by decide, by decide, by decide, by decide, ?_⟩
  intro b h1 h2
  simp only [adjustBrightness]
  omega

/-- Witness for C9 at brightness 37. -/
theorem C9_witness :
    adjustBrightness (adjustBrightness (adjustBrightness
      (adjustBrightness 37))) = 37 :=
  C9_brightness_cycle.2.2.2.2 37 (by decide) (by decide)

/-! ### C8: target-temperature wraparound -/

/-- C8: the target-temperature operator adds 5 in Celsius mode and 10 in
Fahrenheit mode, wraps to MIN_TEMP_C whenever the result exceeds
MAX_TEMP_C, never produces a value above MAX_TEMP_C, and repeated +5 steps
from any starting value eventually reach MIN_TEMP_C. -/
theorem C8_target_wrap :
    (∀ t : ℚ, t + 5 ≤ MAX_TEMP_C → adjustTargetTemp true t = t + 5) ∧
    (∀ t : ℚ, t + 10 ≤ MAX_TEMP_C → adjustTargetTemp false t = t + 10) ∧
    (∀ t : ℚ, MAX_TEMP_C < t + 5 → adjustTargetTemp true t = MIN_TEMP_C) ∧
    (∀ (u : Bool) (t : ℚ), adjustTargetTemp u t ≤ MAX_TEMP_C) ∧
    (∀ t : ℚ, ∃ n : Nat, 0 < n ∧ iterTarget n t = MIN_TEMP_C) := by
  refine ⟨?_, ?_, ?_, ?_, ?_⟩
  · intro t h
    simp [adjustTargetTemp, if_neg (not_lt.mpr h)]
  · intro t h
    simp [adjustTargetTemp, if_neg (not_lt.mpr h)]
  · intro t h
    simp [adjustTargetTemp, if_pos h]
  · intro u t
    cases u <;> simp only [adjustTargetTemp, Bool.false_eq_true,
      if_true, if_false, ite_true, ite_false] <;> split_ifs with h
    · norm_num [MIN_TEMP_C, MAX_TEMP_C]
    · exact not_lt.mp h
    · norm_num [MIN_TEMP_C, MAX_TEMP_C]
    · exact not_lt.mp h
  · intro t
    obtain ⟨k, hk⟩ := exists_nat_ge ((400 - t) / 5)
    exact iterTarget_reaches_min k t (by linarith)

/-- Witness for C8: one wrapping step from 398 and one plain step from
330. -/
theorem C8_witness :
    adjustTargetTemp true 398 = MIN_TEMP_C ∧
    adjustTargetTemp true 330 = 335 :=
  ⟨C8_target_wrap.2.2.1 398 (by norm_num [MAX_TEMP_C]),
   (C8_target_wrap.1 330 (by norm_num [MAX_TEMP_C])).trans (by norm_num)⟩

/-! ### C7: monitoring scenario 330, 332, 345 -/

/-- C7 is refuted: with target 338 and tolerance 5 the first sample 330
already lies out of range (diff 8 > 5), so the first status update is
Warning, not Success ("Monitoring"). -/
theorem C7_counterexample :
    (ingest settings7 false state7 33000).2.statusCall ≠
      some ("Monitoring", COLOR_SUCCESS) ∧
    (ingest settings7 false state7 33000).2.statusCall =
      some ("Temperature Out of Range!", COLOR_WARNING) := by
  constructor <;>
    norm_num [ingest, updateStatus, readTemperature, settings7, state7,
      defaultSettings, initialState, noEffects, le_abs, lt_abs, abs_lt, Option.some_ne_none,
      DEFAULT_TOLERANCE_C, DEFAULT_TARGET_C, COLOR_SUCCESS, COLOR_WARNING,
      COLOR_TEXT, DEFAULT_BRIGHTNESS, DEFAULT_EMISSIVITY]

/-- C7 amended: feeding 330, 332, 345 with target 338 and tolerance 5
yields Warning for 330, then 332 is itself a significant sample
(|332-330| is at least 1) whose recomputed status is again Warning with no
status redraw (message and color unchanged) though it does push telemetry,
then Warning again for 345. -/
theorem C7_scenario :
    (ingest settings7 false state7 33000).1.currentTemp = 330 ∧
    (ingest settings7 false state7 33000).2.statusCall =
      some ("Temperature Out of Range!", COLOR_WARNING) ∧
    (ingest settings7 false state7 33000).2.statusRedraw = true ∧
    (ingest settings7 false
      (ingest settings7 false state7 33000).1 33200).1.currentTemp = 332 ∧
    (ingest settings7 false
      (ingest settings7 false state7 33000).1 33200).2.statusCall =
      some ("Temperature Out of Range!", COLOR_WARNING) ∧
    (ingest settings7 false
      (ingest settings7 false state7 33000).1 33200).2.statusRedraw =
      false ∧
    (ingest settings7 false
      (ingest settings7 false state7 33000).1 33200).2.telemetry ≠ none ∧
    (ingest settings7 false
      (ingest settings7 false
        (ingest settings7 false state7 33000).1 33200).1
      34500).2.statusCall =
      some ("Temperature Out of Range!", COLOR_WARNING) := by
  refine ⟨?_, ?_, ?_, ?_, ?_, ?_, ?_, ?_⟩ <;>
    norm_num [ingest, updateStatus, readTemperature, settings7, state7,
      defaultSettings, initialState, noEffects, le_abs, lt_abs, abs_lt, Option.some_ne_none,
      DEFAULT_TOLERANCE_C, DEFAULT_TARGET_C, COLOR_SUCCESS, COLOR_WARNING,
      COLOR_TEXT, DEFAULT_BRIGHTNESS, DEFAULT_EMISSIVITY]

/-! ### C1: no validity-band check in the control loop -/

/-- C1 is refuted: the sample 50000 centidegrees converts to 500 C, far
above MAX_TEMP_C, yet the control loop ingests it, overwriting currentTemp
(25 becomes 500) and flipping the status from Monitoring to the Warning
message. -/
theorem C1_counterexample :
    MAX_TEMP_C < readTemperature 50000 ∧
    stateC.currentTemp = 25 ∧
    (ingest defaultSettings false stateC 50000).1.currentTemp = 500 ∧
    (ingest defaultSettings false stateC 50000).1.statusMessage ≠
      stateC.statusMessage := by
  refine ⟨?_, ?_, ?_, ?_⟩ <;>
    norm_num [ingest, updateStatus, readTemperature, stateC,
      defaultSettings, noEffects, le_abs, lt_abs, abs_lt, Option.some_ne_none, MAX_TEMP_C,
      DEFAULT_TOLERANCE_C, DEFAULT_TARGET_C, COLOR_SUCCESS, COLOR_WARNING,
      DEFAULT_BRIGHTNESS, DEFAULT_EMISSIVITY] <;> try decide

/-- C1 amended: the control loop applies no physically-valid-band check.
Any sample passing the significance test - including one whose converted
value lies outside [MIN_TEMP_C, MAX_TEMP_C] - overwrites currentTemp with
its converted value and pushes telemetry; isValidTemperature is consulted
only during sensor initialization and in the uncalled checkTemperature
helper. -/
theorem C1_no_band_check (sett : Settings) (menuOpen : Bool)
    (st : SystemState) (raw : ℚ)
    (hband : readTemperature raw < MIN_TEMP_C ∨
      MAX_TEMP_C < readTemperature raw)
    (hsig : 1 ≤ |readTemperature raw - st.currentTemp| ∨
      st.currentTemp = 0) :
    (ingest sett menuOpen st raw).1.currentTemp = readTemperature raw ∧
    (ingest sett menuOpen st raw).2.telemetry ≠ none :=
  ⟨ingest_currentTemp_of_significant sett menuOpen st raw hsig,
   ingest_telemetry_of_significant sett menuOpen st raw hsig⟩

/-- Witness for C1 at the out-of-band sample 50000 centidegrees. -/
theorem C1_witness :
    (ingest defaultSettings false stateC 50000).1.currentTemp =
      readTemperature 50000 ∧
    (ingest defaultSettings false stateC 50000).2.telemetry ≠ none :=
  C1_no_band_check defaultSettings false stateC 50000
    (Or.inr (by norm_num [readTemperature, MAX_TEMP_C]))
    (Or.inl (by norm_num [readTemperature, stateC, le_abs]))

/-! ### C4: insignificant samples are dropped, except after a zero
sample -/

/-- C4 is refuted in its zero case: after ingesting a sample converting to
exactly 0, currentTemp is 0, which the significance test treats as the
initial sentinel, so a follow-up sample only 0.5 away still triggers a
display update, a telemetry push and a currentTemp change. -/
theorem C4_counterexample :
    |readTemperature 0 - readTemperature 50| < 1 ∧
    readTemperature 0 = 0 ∧
    (ingest defaultSettings false
      (ingest defaultSettings false stateD 0).1 50).2.telemetry ≠ none ∧
    (ingest defaultSettings false
      (ingest defaultSettings false stateD 0).1 50).2.drawTemp = true ∧
    (ingest defaultSettings false
      (ingest defaultSettings false stateD 0).1 50).1.currentTemp ≠
      (ingest defaultSettings false stateD 0).1.currentTemp := by
  refine ⟨?_, ?_, ?_, ?_, ?_⟩ <;>
    norm_num [ingest, updateStatus, readTemperature, stateD,
      defaultSettings, initialState, noEffects, le_abs, lt_abs, abs_lt, Option.some_ne_none,
      DEFAULT_TOLERANCE_C, DEFAULT_TARGET_C, COLOR_SUCCESS, COLOR_WARNING,
      COLOR_TEXT, DEFAULT_BRIGHTNESS, DEFAULT_EMISSIVITY]

/-- C4 amended: when the first sample is significant and its converted
value is nonzero, any second sample within 1.0 of it is dropped with no
state change and no effect at all (no display update, no telemetry push,
no status call). The zero case is excluded: a first sample converting to
exactly 0 re-arms the initial-value sentinel. -/
theorem C4_insignificant_dropped (sett : Settings) (menuOpen : Bool)
    (st : SystemState) (raw1 raw2 : ℚ)
    (hsig : 1 ≤ |readTemperature raw1 - st.currentTemp| ∨
      st.currentTemp = 0)
    (hnz : readTemperature raw1 ≠ 0)
    (hclose : |readTemperature raw1 - readTemperature raw2| < 1) :
    ingest sett menuOpen (ingest sett menuOpen st raw1).1 raw2 =
      ((ingest sett menuOpen st raw1).1, noEffects) := by
  have h1 : (ingest sett menuOpen st raw1).1.currentTemp =
      readTemperature raw1 :=
    ingest_currentTemp_of_significant sett menuOpen st raw1 hsig
  have hc : ¬ (1 ≤ |readTemperature raw2 -
      (ingest sett menuOpen st raw1).1.currentTemp| ∨
      (ingest sett menuOpen st raw1).1.currentTemp = 0) := by
    rw [h1]
    push_neg
    refine ⟨?_, hnz⟩
    rw [abs_sub_comm]
    exact hclose
  conv_lhs => rw [ingest]
  rw [if_neg hc]

/-- Witness for C4 with samples 330.00 C then 330.50 C from a zeroed
monitor state. -/
theorem C4_witness :
    ingest defaultSettings false
      (ingest defaultSettings false initialState 33000).1 33050 =
      ((ingest defaultSettings false initialState 33000).1, noEffects) :=
  C4_insignificant_dropped defaultSettings false initialState 33000 33050
    (Or.inr (by norm_num [initialState, COLOR_TEXT]))
    (by norm_num [readTemperature])
    (by norm_num [readTemperature, abs_sub_lt_iff, abs_lt])

/-! ### Modal helper lemmas -/

/-- One modal step keeps the staged emissivity inside
[EMISSIVITY_MIN, EMISSIVITY_MAX]. -/
theorem modalStep_bounds (orig temp : ℚ) (changed : Bool) (x y : Int)
    (h1 : EMISSIVITY_MIN ≤ temp) (h2 : temp ≤ EMISSIVITY_MAX) :
    EMISSIVITY_MIN ≤ (modalStep orig temp changed x y).1 ∧
    (modalStep orig temp changed x y).1 ≤ EMISSIVITY_MAX := by
  have hmin : EMISSIVITY_MIN = (65 : ℚ) / 100 := rfl
  have hmax : EMISSIVITY_MAX = (1 : ℚ) := rfl
  have hstep : EMISSIVITY_STEP = (1 : ℚ) / 100 := rfl
  rw [hmin] at h1
  rw [hmax] at h2
  simp only [modalStep, hmin, hmax, hstep]
  split_ifs <;> constructor <;> (first | linarith | (dsimp only; linarith))

/-- The adjustment sub-loop keeps the staged emissivity, and every value
of its trace, inside [EMISSIVITY_MIN, EMISSIVITY_MAX]. -/
theorem adjustLoop_bounds (orig : ℚ) (events : List (Int × Int)) :
    ∀ (temp : ℚ) (changed : Bool),
      EMISSIVITY_MIN ≤ temp → temp ≤ EMISSIVITY_MAX →
      (EMISSIVITY_MIN ≤ (adjustLoop orig temp changed events).1 ∧
        (adjustLoop orig temp changed events).1 ≤ EMISSIVITY_MAX) ∧
      ∀ q ∈ (adjustLoop orig temp changed events).2.2.2,
        EMISSIVITY_MIN ≤ q ∧ q ≤ EMISSIVITY_MAX := by
  induction events with
  | nil =>
    intro temp changed h1 h2
    simp only [adjustLoop]
    exact ⟨⟨h1, h2⟩, by simp⟩
  | cons e rest ih =>
    intro temp changed h1 h2
    obtain ⟨x, y⟩ := e
    have hs := modalStep_bounds orig temp changed x y h1 h2
    simp only [adjustLoop]
    split_ifs with hfin
    · refine ⟨hs, ?_⟩
      intro q hq
      simp only [List.mem_singleton] at hq
      subst hq
      exact hs
    · have hr := ih (modalStep orig temp changed x y).1
        (modalStep orig temp changed x y).2.1 hs.1 hs.2
      refine ⟨hr.1, ?_⟩
      intro q hq
      simp only [List.mem_cons] at hq
      rcases hq with hq | hq
      · subst hq; exact hs
      · exact hr.2 q hq

/-- The entry clamp of adjustEmissivity lands inside
[EMISSIVITY_MIN, EMISSIVITY_MAX]. -/
theorem entryClamp_bounds (e : ℚ) :
    EMISSIVITY_MIN ≤
      (if (if e < EMISSIVITY_MIN then EMISSIVITY_MIN else e) >
          EMISSIVITY_MAX then EMISSIVITY_MAX
        else if e < EMISSIVITY_MIN then EMISSIVITY_MIN else e) ∧
    (if (if e < EMISSIVITY_MIN then EMISSIVITY_MIN else e) >
        EMISSIVITY_MAX then EMISSIVITY_MAX
      else if e < EMISSIVITY_MIN then EMISSIVITY_MIN else e) ≤
      EMISSIVITY_MAX := by
  have hmin : EMISSIVITY_MIN = (65 : ℚ) / 100 := rfl
  have hmax : EMISSIVITY_MAX = (1 : ℚ) := rfl
  rw [hmin, hmax]
  split_ifs <;> constructor <;> first | linarith | norm_num

/-- Exhaustive description of the adjustEmissivity outcomes: either the
device did not restart and the settings record is returned untouched with
nothing persisted, or it restarted and the staged value was written into
emissivity and the whole record persisted. -/
theorem adjustEmissivity_cases (s : Settings) (events : List (Int × Int)) :
    ((adjustEmissivity s events).restarted = false ∧
      (adjustEmissivity s events).settings = s ∧
      (adjustEmissivity s events).persisted = none) ∨
    ((adjustEmissivity s events).restarted = true ∧
      (adjustEmissivity s events).settings =
        { s with emissivity := (adjustEmissivity s events).staged } ∧
      (adjustEmissivity s events).persisted =
        some (adjustEmissivity s events).settings) := by
  simp only [adjustEmissivity]
  set t2 := (if (if s.emissivity < EMISSIVITY_MIN then EMISSIVITY_MIN
      else s.emissivity) > EMISSIVITY_MAX then EMISSIVITY_MAX
    else if s.emissivity < EMISSIVITY_MIN then EMISSIVITY_MIN
      else s.emissivity) with ht2
  set r := adjustLoop s.emissivity t2 false events with hr
  split
  · left; simp
  · split_ifs with hch
    · split
      · left; simp
      · right; simp
      · left; simp
    · left; simp

/-- A menu-item action that does not restart the device leaves the
emissivity field untouched. -/
theorem applyMenuItem_emissivity (s : Settings) (item : Int)
    (mt : List (Int × Int))
    (h : (applyMenuItem s item mt).2.2 = false) :
    (applyMenuItem s item mt).1.emissivity = s.emissivity := by
  simp only [applyMenuItem] at h ⊢
  split_ifs at h ⊢ <;> try rfl
  dsimp only at h ⊢
  rcases adjustEmissivity_cases s mt with ⟨_, h2, _⟩ | ⟨h1, _, _⟩
  · rw [h2]
  · rw [h] at h1; cases h1

/-- The menu-area phase, when it does not restart the device, keeps the
settings emissivity and writes to the store (if at all) a record carrying
that same emissivity. -/
theorem settingsMenuPhase_emissivity (w : World) (x y : Int)
    (mt : List (Int × Int))
    (h : (settingsMenuPhase w x y mt).2 = false) :
    (settingsMenuPhase w x y mt).1.settings.emissivity =
      w.settings.emissivity ∧
    ((settingsMenuPhase w x y mt).1.store.emissivity =
        w.settings.emissivity ∨
      (settingsMenuPhase w x y mt).1.store = w.store) := by
  simp only [settingsMenuPhase] at h ⊢
  split_ifs at h ⊢ with h1 h2 h3
  · have ha := applyMenuItem_emissivity w.settings _ mt (by simpa using h3)
    exact ⟨ha, Or.inl ha⟩
  · exact ⟨rfl, Or.inr rfl⟩
  · exact ⟨rfl, Or.inr rfl⟩

/-! ### C3: emissivity is persisted only via confirmed Restart -/

/-- C3: the staged emissivity is written into Settings.emissivity and
persisted only on the confirmed-Restart transition; every other modal exit
(Cancel, Done with an unchanged value, or a still-blocking loop) returns
the entry settings with nothing persisted, and a non-restarting
handleSettingsTouch never changes the emissivity field of either the
settings record or the store snapshot it writes. -/
theorem C3_emissivity_persistence :
    (∀ (s : Settings) (events : List (Int × Int)),
      (adjustEmissivity s events).restarted = false →
        (adjustEmissivity s events).settings = s ∧
        (adjustEmissivity s events).persisted = none) ∧
    (∀ (s : Settings) (events : List (Int × Int)),
      (adjustEmissivity s events).restarted = true →
        (adjustEmissivity s events).settings.emissivity =
          (adjustEmissivity s events).staged ∧
        (adjustEmissivity s events).persisted =
          some (adjustEmissivity s events).settings) ∧
    (∀ (w : World) (x y : Int) (mt : List (Int × Int)),
      (handleSettingsTouch w x y mt).2 = false →
        (handleSettingsTouch w x y mt).1.settings.emissivity =
          w.settings.emissivity ∧
        ((handleSettingsTouch w x y mt).1.store.emissivity =
            w.settings.emissivity ∨
          (handleSettingsTouch w x y mt).1.store = w.store)) := by
  refine ⟨?_, ?_, ?_⟩
  · intro s events h
    rcases adjustEmissivity_cases s events with ⟨_, h2, h3⟩ | ⟨h1, _, _⟩
    · exact ⟨h2, h3⟩
    · rw [h] at h1; cases h1
  · intro s events h
    rcases adjustEmissivity_cases s events with ⟨h1, _, _⟩ | ⟨_, h2, h3⟩
    · rw [h] at h1; cases h1
    · exact ⟨by rw [h2], h3⟩
  · intro w x y mt h
    simp only [handleSettingsTouch] at h ⊢
    split_ifs at h ⊢ with hres hfoot
    · simp [hres] at h
    · obtain ⟨ha, _⟩ :=
        settingsMenuPhase_emissivity w x y mt (by simpa using hres)
      exact ⟨ha, Or.inl ha⟩
    · exact settingsMenuPhase_emissivity w x y mt (by simpa using hres)

/-- Witness for C3: pressing Done immediately (touch at (50, 200)) exits
the modal with nothing changed and nothing persisted. -/
theorem C3_witness :
    (adjustEmissivity defaultSettings [(50, 200)]).settings =
      defaultSettings ∧
    (adjustEmissivity defaultSettings [(50, 200)]).persisted = none :=
  C3_emissivity_persistence.1 defaultSettings [(50, 200)]
    (by norm_num [adjustEmissivity, adjustLoop, modalStep, confirmLoop,
      Button.contains, upBtn, downBtn, doneBtn, mkButton, EMISSIVITY_MIN,
      EMISSIVITY_MAX, EMISSIVITY_STEP, defaultSettings, DEFAULT_EMISSIVITY])

/-! ### C10: the staged emissivity is always within bounds -/

/-- C10: throughout the emissivity modal the staged value stays within
[EMISSIVITY_MIN, EMISSIVITY_MAX]: the entry clamp and every recorded
intermediate value lie in the band, and any record persisted through the
confirmed-Restart path carries an in-band emissivity, even when the value
loaded from the store did not. -/
theorem C10_emissivity_bounds (s : Settings) (events : List (Int × Int)) :
    (∀ q ∈ (adjustEmissivity s events).trace,
      EMISSIVITY_MIN ≤ q ∧ q ≤ EMISSIVITY_MAX) ∧
    (EMISSIVITY_MIN ≤ (adjustEmissivity s events).staged ∧
      (adjustEmissivity s events).staged ≤ EMISSIVITY_MAX) ∧
    ∀ s1 : Settings, (adjustEmissivity s events).persisted = some s1 →
      EMISSIVITY_MIN ≤ s1.emissivity ∧ s1.emissivity ≤ EMISSIVITY_MAX := by
  have hcl := entryClamp_bounds s.emissivity
  simp only [adjustEmissivity]
  set t2 := (if (if s.emissivity < EMISSIVITY_MIN then EMISSIVITY_MIN
      else s.emissivity) > EMISSIVITY_MAX then EMISSIVITY_MAX
    else if s.emissivity < EMISSIVITY_MIN then EMISSIVITY_MIN
      else s.emissivity) with ht2
  set r := adjustLoop s.emissivity t2 false events with hr
  have hloop := adjustLoop_bounds s.emissivity events t2 false hcl.1 hcl.2
  rw [← hr] at hloop
  have htr : ∀ q ∈ t2 :: r.2.2.2,
      EMISSIVITY_MIN ≤ q ∧ q ≤ EMISSIVITY_MAX := by
    intro q hq
    rcases List.mem_cons.mp hq with hq | hq
    · subst hq; exact hcl
    · exact hloop.2 q hq
  split
  · exact ⟨htr, hloop.1, by simp⟩
  · split_ifs with hch
    · split
      · exact ⟨htr, hloop.1, by simp⟩
      · refine ⟨htr, hloop.1, ?_⟩
        intro s1 hs1
        simp only [Option.some_inj] at hs1
        rw [← hs1]
        exact hloop.1
      · exact ⟨htr, hloop.1, by simp⟩
    · exact ⟨htr, hloop.1, by simp⟩

/-- Witness for C10: stepping up once from the default 0.87 and confirming
Restart persists the in-band value 0.88. -/
theorem C10_witness :
    EMISSIVITY_MIN ≤
      (adjustEmissivity defaultSettings
        [(230, 70), (50, 200), (50, 200)]).settings.emissivity ∧
    (adjustEmissivity defaultSettings
      [(230, 70), (50, 200), (50, 200)]).settings.emissivity ≤
      EMISSIVITY_MAX :=
  (C10_emissivity_bounds defaultSettings
      [(230, 70), (50, 200), (50, 200)]).2.2
    (adjustEmissivity defaultSettings
      [(230, 70), (50, 200), (50, 200)]).settings
    (by norm_num [adjustEmissivity, adjustLoop, modalStep, confirmLoop,
      Button.contains, upBtn, downBtn, doneBtn, confirmBtn, cancelBtn,
      mkButton, EMISSIVITY_MIN, EMISSIVITY_MAX, EMISSIVITY_STEP,
      defaultSettings, DEFAULT_EMISSIVITY])

/-! ### Touch-dispatcher helper lemmas -/

/-- The menu-area phase never touches the system state. -/
theorem settingsMenuPhase_st (w : World) (x y : Int)
    (mt : List (Int × Int)) :
    (settingsMenuPhase w x y mt).1.st = w.st := by
  simp only [settingsMenuPhase]
  split_ifs <;> rfl

/-- The menu-area phase never touches the menu-open flag. -/
theorem settingsMenuPhase_menuOpen (w : World) (x y : Int)
    (mt : List (Int × Int)) :
    (settingsMenuPhase w x y mt).1.menuOpen = w.menuOpen := by
  simp only [settingsMenuPhase]
  split_ifs <;> rfl

/-- handleSettingsTouch never touches the system state (monitoring flag,
current screen, temperatures). -/
theorem handleSettingsTouch_st (w : World) (x y : Int)
    (mt : List (Int × Int)) :
    (handleSettingsTouch w x y mt).1.st = w.st := by
  simp only [handleSettingsTouch]
  split_ifs <;> simp [settingsMenuPhase_st]

/-- handleSettingsTouch keeps the menu open when the touch lies above the
footer area. -/
theorem handleSettingsTouch_menuOpen (w : World) (x y : Int)
    (mt : List (Int × Int))
    (hy : ¬ displayHeight - FOOTER_HEIGHT < y) :
    (handleSettingsTouch w x y mt).1.menuOpen = w.menuOpen := by
  simp only [handleSettingsTouch]
  split_ifs with hres hfoot
  · exact settingsMenuPhase_menuOpen w x y mt
  · exact absurd (of_decide_eq_true hfoot) hy
  · exact settingsMenuPhase_menuOpen w x y mt

/-- The press branch never mutates the monitoring flag, the menu-open flag
or the current screen. -/
theorem handlePress_preserves (w : World) (tx ty : Int)
    (mt : List (Int × Int)) :
    (handlePress w tx ty mt).w.st.isMonitoring = w.st.isMonitoring ∧
    (handlePress w tx ty mt).w.menuOpen = w.menuOpen ∧
    (handlePress w tx ty mt).w.st.currentScreen = w.st.currentScreen := by
  simp only [handlePress]
  split_ifs with hf hm hs hmo
  · exact ⟨rfl, rfl, rfl⟩
  · exact ⟨rfl, rfl, rfl⟩
  · exact ⟨rfl, rfl, rfl⟩
  · have hlt : ty < displayHeight - FOOTER_HEIGHT := by
      have h0 : ¬ (footerY ≤ ty) :=
        of_decide_eq_false (Bool.of_not_eq_true hf)
      simp only [footerY] at h0
      exact not_le.mp h0
    have hst := handleSettingsTouch_st
      { w with touch := { w.touch with touchProcessed := true } } tx ty mt
    have hmo2 := handleSettingsTouch_menuOpen
      { w with touch := { w.touch with touchProcessed := true } } tx ty mt
      (not_lt.mpr (le_of_lt hlt))
    exact ⟨by rw [hst], by rw [hmo2], by rw [hst]⟩
  · exact ⟨rfl, rfl, rfl⟩

/-- The release branch never mutates the settings record or the store. -/
theorem handleRelease_settings (w : World) (tx ty : Int) :
    (handleRelease w tx ty).1.settings = w.settings ∧
    (handleRelease w tx ty).1.store = w.store := by
  cases hb : w.touch.lastPressed with
  | none => simp [handleRelease, hb]
  | some b =>
    simp only [handleRelease, hb]
    split_ifs <;> exact ⟨rfl, rfl⟩

/-- The press branch emits no ButtonReleased event. -/
theorem handlePress_no_release (w : World) (tx ty : Int)
    (mt : List (Int × Int)) (lbl : String) :
    TEvent.buttonReleased lbl ∉ (handlePress w tx ty mt).events := by
  simp only [handlePress]
  split_ifs <;> simp

/-- Any ButtonReleased event of the release branch names the armed button
and certifies that the release coordinates hit its bounds. -/
theorem handleRelease_mem (w : World) (tx ty : Int) (lbl : String)
    (h : TEvent.buttonReleased lbl ∈ (handleRelease w tx ty).2) :
    ∃ b, w.touch.lastPressed = some b ∧ b.contains tx ty = true ∧
      lbl = b.label := by
  cases hb : w.touch.lastPressed with
  | none => simp [handleRelease, hb] at h
  | some b =>
    simp only [handleRelease, hb] at h
    split_ifs at h <;>
      first
        | (simp only [List.mem_singleton, TEvent.buttonReleased.injEq] at h
           exact ⟨b, rfl, by assumption, h⟩)
        | simp at h

/-! ### Touch fixtures -/

/-- Fixture: a world with the Monitor footer button armed and awaiting its
release. -/
def armedWorld : World :=
  { settings := defaultSettings, store := defaultSettings
    st := initialState, menuOpen := false, menuSelected := 0
    touch := { lastPressed := some { monitorButton false with pressed := true }
               touchProcessed := true } }

/-- Fixture: a world sitting in the settings menu with no armed button. -/
def menuWorld : World :=
  { settings := defaultSettings, store := defaultSettings
    st := initialState, menuOpen := true, menuSelected := 0
    touch := { lastPressed := none, touchProcessed := false } }

/-- Fixture: a world in the settings menu with the Back footer button
armed, whose live settings (brightness 192) differ from the store
snapshot. -/
def backWorld : World :=
  { settings := { defaultSettings with brightness := 192 }
    store := defaultSettings
    st := { initialState with currentScreen := Screen.SETTINGS }
    menuOpen := true, menuSelected := 2
    touch := { lastPressed :=
                 some { settingsBackButton true with pressed := true }
               touchProcessed := true } }

/-! ### C2: dispatcher release discipline -/

/-- C2: the dispatcher emits a ButtonReleased event only for a release
sample whose coordinates still hit the armed button's bounds, and a tick
with no contact always clears the armed-button reference. -/
theorem C2_touch_dispatcher :
    (∀ (w : World) (s : TouchSample) (mt : List (Int × Int))
        (lbl : String),
      TEvent.buttonReleased lbl ∈ (handleTouch w s mt).events →
      ∃ (tx ty : Int) (wp : Bool) (b : Button),
        s = TouchSample.contact tx ty wp true ∧
        w.touch.lastPressed = some b ∧
        b.contains tx ty = true ∧ lbl = b.label) ∧
    (∀ (w : World) (mt : List (Int × Int)),
      (handleTouch w TouchSample.noContact mt).w.touch.lastPressed =
        none) := by
  constructor
  · intro w s mt lbl h
    cases s with
    | noContact => simp [handleTouch] at h
    | contact tx ty wp wr =>
      simp only [handleTouch] at h
      split_ifs at h with h1 h2
      · exact absurd h (handlePress_no_release w tx ty mt lbl)
      · obtain ⟨b, hb, hc, hl⟩ := handleRelease_mem w tx ty lbl h
        have hwr : wr = true := by
          simp only [Bool.and_eq_true] at h2
          exact h2.1.1
        exact ⟨tx, ty, wp, b, by rw [hwr], hb, hc, hl⟩
      · simp at h
  · intro w mt
    rfl

/-- Witness for C2: releasing the armed Monitor button at (20, 210) inside
its bounds. -/
theorem C2_witness :
    ∃ (tx ty : Int) (wp : Bool) (b : Button),
      TouchSample.contact 20 210 false true =
        TouchSample.contact tx ty wp true ∧
      armedWorld.touch.lastPressed = some b ∧
      b.contains tx ty = true ∧ "Monitor" = b.label :=
  C2_touch_dispatcher.1 armedWorld (TouchSample.contact 20 210 false true)
    [] "Monitor" (by decide)

/-! ### C5: which mutations happen on press, which on release -/

/-- C5 is refuted: with the settings menu open, a press sample at
(100, 90) lands on menu item 2 and immediately mutates
Settings.brightness from 128 to 192 - a settings-menu adjustment applied
on the press alone, with no release event involved. -/
theorem C5_counterexample :
    (handleTouch menuWorld (TouchSample.contact 100 90 true false)
      []).w.settings.brightness = 192 ∧
    menuWorld.settings.brightness = 128 ∧
    (handleTouch menuWorld (TouchSample.contact 100 90 true false)
      []).w.settings.brightness ≠ menuWorld.settings.brightness := by
  refine ⟨by decide, by decide, by decide⟩

/-- C5 amended: the monitoring toggle and the screen switch happen only
when the release sample is processed - a press sample never changes
isMonitoring, menuOpen or currentScreen - but settings-menu adjustments
are applied on the press sample itself (handleSettingsTouch is invoked
from the press branch), and conversely the release branch never mutates
the settings record or the store. -/
theorem C5_mutation_phases :
    (∀ (w : World) (tx ty : Int) (mt : List (Int × Int)),
      (handleTouch w (TouchSample.contact tx ty true false)
        mt).w.st.isMonitoring = w.st.isMonitoring ∧
      (handleTouch w (TouchSample.contact tx ty true false)
        mt).w.menuOpen = w.menuOpen ∧
      (handleTouch w (TouchSample.contact tx ty true false)
        mt).w.st.currentScreen = w.st.currentScreen) ∧
    (∀ (w : World) (tx ty : Int) (mt : List (Int × Int)),
      (handleTouch w (TouchSample.contact tx ty false true)
        mt).w.settings = w.settings ∧
      (handleTouch w (TouchSample.contact tx ty false true)
        mt).w.store = w.store) := by
  constructor
  · intro w tx ty mt
    simp only [handleTouch]
    split_ifs with h1 h2
    · exact handlePress_preserves w tx ty mt
    · simp at h2
    · exact ⟨rfl, rfl, rfl⟩
  · intro w tx ty mt
    simp only [handleTouch]
    split_ifs with h1 h2
    · simp at h1
    · exact handleRelease_settings w tx ty
    · exact ⟨rfl, rfl⟩

/-! ### C6: the Back release switches screens without persisting -/

/-- C6 is refuted: releasing the armed Back button at (200, 210) switches
the screen from SettingsMenu to Main but writes nothing to the store - the
store still holds brightness 128 while the live settings hold 192, so no
persist happened on the transition. -/
theorem C6_counterexample :
    (handleTouch backWorld (TouchSample.contact 200 210 false true)
      []).w.menuOpen = false ∧
    (handleTouch backWorld (TouchSample.contact 200 210 false true)
      []).w.st.currentScreen = Screen.MAIN ∧
    (handleTouch backWorld (TouchSample.contact 200 210 false true)
      []).w.store.brightness = 128 ∧
    (handleTouch backWorld (TouchSample.contact 200 210 false true)
      []).w.settings.brightness = 192 := by
  refine ⟨by decide, by decide, by decide, by decide⟩

/-- C6 amended: the SettingsMenu-to-Main transition triggered by the Back
button release switches the screen but does not persist the settings
record: the store is left exactly as it was (persistence happens instead
right after each individual menu-item adjustment; the save-on-exit branch
of handleSettingsTouch is reachable only from the press path, which the
dispatcher never routes into the footer area). -/
theorem C6_back_release (w : World) (tx ty : Int) (mt : List (Int × Int))
    (b : Button) (hb : w.touch.lastPressed = some b)
    (hlbl : b.label = "Back") (hproc : w.touch.touchProcessed = true)
    (hopen : w.menuOpen = true) (hin : b.contains tx ty = true) :
    (handleTouch w (TouchSample.contact tx ty false true) mt).w.menuOpen =
      false ∧
    (handleTouch w (TouchSample.contact tx ty false true)
      mt).w.st.currentScreen = Screen.MAIN ∧
    (handleTouch w (TouchSample.contact tx ty false true) mt).w.store =
      w.store ∧
    (handleTouch w (TouchSample.contact tx ty false true) mt).w.settings =
      w.settings := by
  simp [handleTouch, handleRelease, hb, hproc, hopen, hin, hlbl]

/-- Witness for C6 at the concrete backWorld fixture. -/
theorem C6_witness :
    (handleTouch backWorld (TouchSample.contact 200 210 false true)
      []).w.menuOpen = false ∧
    (handleTouch backWorld (TouchSample.contact 200 210 false true)
      []).w.st.currentScreen = Screen.MAIN ∧
    (handleTouch backWorld (TouchSample.contact 200 210 false true)
      []).w.store = backWorld.store ∧
    (handleTouch backWorld (TouchSample.contact 200 210 false true)
      []).w.settings = backWorld.settings :=
  C6_back_release backWorld 200 210 []
    { settingsBackButton true with pressed := true }
    rfl (by decide) rfl rfl (by decide)

end Cores3
